import Mathlib

/-!
Shallow embedding of the core logic of the `code-the-dream-blog` repository
(a React "Hacker Stories" search UI):

* `storiesReducer` (src/src/App.js, lines 25-56): the four-event fetch-status
  state machine, with a throwing default branch modelled as `Option.none`;
* the list filter `searchedStories` (src/unnamed/part_000, lines 75-77):
  case-insensitive substring match on the `title` field;
* `useSemiPersistentState` seeding (src/src/App.js, line 9):
  `localStorage.getItem(key) || initialState`;
* the query/fetch orchestration around `handleSearchSubmit`
  (src/src/App.js, lines 66-110) and the `disabled={!searchTerm}` submit
  button of `SearchForm` (src/src/App.js, line 206).
-/

/-- An Item/story record as fetched from the API and shown in the result
list (fields as used in src/src/App.js and src/unnamed/part_000). -/
structure Story where
  title : String
  url : String
  author : String
  num_comments : Nat
  points : Int
  objectID : Nat
  deriving DecidableEq, Repr

/-- The reducer state `{ data, isLoading, isError }` initialised at
src/src/App.js line 72. -/
structure StoriesState where
  data : List Story
  isLoading : Bool
  isError : Bool
  deriving DecidableEq, Repr

/-- Actions dispatched to `storiesReducer`. Each of the four recognised
constructors corresponds to one `case` label of the `switch` in
src/src/App.js lines 26-52; `unrecognized ty` stands for any action object
whose `type` string `ty` matches none of those four labels and therefore
falls through to the `default` branch. -/
inductive StoriesAction where
  | STORIES_FETCH_INIT : StoriesAction
  | STORIES_FETCH_SUCCESS : List Story → StoriesAction
  | STORIES_FETCH_FAILURE : StoriesAction
  | REMOVE_STORY : Story → StoriesAction
  | unrecognized : String → StoriesAction
  deriving DecidableEq, Repr

/-- The `action.type` string of an action, as the JS `switch` inspects it. -/
def StoriesAction.type : StoriesAction → String
  | .STORIES_FETCH_INIT => "STORIES_FETCH_INIT"
  | .STORIES_FETCH_SUCCESS _ => "STORIES_FETCH_SUCCESS"
  | .STORIES_FETCH_FAILURE => "STORIES_FETCH_FAILURE"
  | .REMOVE_STORY _ => "REMOVE_STORY"
  | .unrecognized ty => ty

/-- The reducer of src/src/App.js lines 25-56. The JS `default` branch does
`throw new Error()`; a thrown error is modelled as `none`, a returned state
as `some`. Spread syntax `{...state, f: v}` keeps every field not mentioned. -/
def storiesReducer (state : StoriesState) (action : StoriesAction) : Option StoriesState :=
  match action with
  | .STORIES_FETCH_INIT =>
      some { state with isLoading := true, isError := false }
  | .STORIES_FETCH_SUCCESS payload =>
      some { state with isLoading := false, isError := false, data := payload }
  | .STORIES_FETCH_FAILURE =>
      some { state with isLoading := false, isError := true }
  | .REMOVE_STORY payload =>
      some { state with
              data := state.data.filter
                (fun story => payload.objectID != story.objectID) }
  | .unrecognized _ => none

/-- The initial reducer state `{ data: [], isLoading: false, isError: false }`
of src/src/App.js line 72. -/
def initialStoriesState : StoriesState :=
  { data := [], isLoading := false, isError := false }

/-- Dispatching a list of actions in order, starting from `s`; a throwing
reducer step aborts the whole run. -/
def applyActions (s : StoriesState) : List StoriesAction → Option StoriesState
  | [] => some s
  | a :: acts =>
      match storiesReducer s a with
      | none => none
      | some s2 => applyActions s2 acts

/-- C2: FETCH_SUCCESS(payload) yields isLoading=false, isError=false and
items equal to the payload, replacing the previous items wholesale. -/
theorem storiesReducer_fetch_success_sets (s : StoriesState) (payload : List Story) :
    storiesReducer s (.STORIES_FETCH_SUCCESS payload)
      = some { data := payload, isLoading := false, isError := false } := rfl

/-- C3: from any state, FETCH_INIT followed by FETCH_FAILURE yields
isLoading=false, isError=true, with the items unchanged from before
FETCH_INIT. -/
theorem storiesReducer_init_then_failure (s : StoriesState) :
    (storiesReducer s .STORIES_FETCH_INIT).bind
        (fun s2 => storiesReducer s2 .STORIES_FETCH_FAILURE)
      = some { data := s.data, isLoading := false, isError := true } := rfl

/-- The sample story "React" from `initialStories` in src/unnamed/part_000,
lines 14-21. -/
def reactStory : Story :=
  { title := "React", url := "https://reactjs.org/", author := "Jordan Walke",
    num_comments := 3, points := 4, objectID := 0 }

/-- The sample story "Redux" from `initialStories` in src/unnamed/part_000,
lines 22-29. -/
def reduxStory : Story :=
  { title := "Redux", url := "https://redux.js.org/",
    author := "Dan Abramov, Andrew Clark",
    num_comments := 2, points := 5, objectID := 1 }

/-- The sample list `initialStories` of src/unnamed/part_000, lines 13-30. -/
def initialStories : List Story := [reactStory, reduxStory]

/-- Every reducer step that returns a state preserves the invariant that
`isLoading` and `isError` are not both true. -/
theorem storiesReducer_preserves_flags (s s2 : StoriesState) (a : StoriesAction)
    (hs : ¬(s.isLoading = true ∧ s.isError = true))
    (h : storiesReducer s a = some s2) :
    ¬(s2.isLoading = true ∧ s2.isError = true) := by
  cases a <;> simp [storiesReducer] at h <;> subst h <;> simp_all

/-- Running any action list from a state satisfying the flag invariant ends
in a state satisfying it. -/
theorem applyActions_preserves_flags (acts : List StoriesAction) :
    ∀ s0 s : StoriesState,
      ¬(s0.isLoading = true ∧ s0.isError = true) →
      applyActions s0 acts = some s →
      ¬(s.isLoading = true ∧ s.isError = true) := by
  induction acts with
  | nil =>
      intro s0 s h0 h
      rw [applyActions] at h
      cases h
      exact h0
  | cons a acts ih =>
      intro s0 s h0 h
      rw [applyActions] at h
      cases hr : storiesReducer s0 a with
      | none => rw [hr] at h; exact absurd h (by simp)
      | some s1 =>
          rw [hr] at h
          exact ih s1 s (storiesReducer_preserves_flags s0 s1 a h0 hr) h

/-- C1: every state reachable from the initial state
`{data: [], isLoading: false, isError: false}` by a sequence of reducer
transitions never has `isLoading` and `isError` both true. -/
theorem storiesReducer_reachable_not_loading_and_error
    (acts : List StoriesAction) (s : StoriesState)
    (h : applyActions initialStoriesState acts = some s) :
    ¬(s.isLoading = true ∧ s.isError = true) :=
  applyActions_preserves_flags acts initialStoriesState s (by simp [initialStoriesState]) h

/-- Witness for C1 at the concrete run INIT, FAILURE. -/
theorem storiesReducer_reachable_not_loading_and_error_witness :
    ¬(({ data := [], isLoading := false, isError := true } : StoriesState).isLoading = true
      ∧ ({ data := [], isLoading := false, isError := true } : StoriesState).isError = true) :=
  storiesReducer_reachable_not_loading_and_error
    [.STORIES_FETCH_INIT, .STORIES_FETCH_FAILURE]
    { data := [], isLoading := false, isError := true } rfl

/-- C6: REMOVE_STORY is idempotent (applying it twice equals applying it
once), and when no item in the state has the payload's id the transition
leaves the state unchanged. -/
theorem storiesReducer_remove_idempotent_and_noop (s : StoriesState) (item : Story) :
    ((storiesReducer s (.REMOVE_STORY item)).bind
        (fun s2 => storiesReducer s2 (.REMOVE_STORY item))
      = storiesReducer s (.REMOVE_STORY item))
    ∧ ((∀ st ∈ s.data, st.objectID ≠ item.objectID) →
        storiesReducer s (.REMOVE_STORY item) = some s) := by
  constructor
  · simp [storiesReducer, List.filter_filter]
  · intro h
    have hall : ∀ st ∈ s.data, (item.objectID != st.objectID) = true := by
      intro st hst
      simpa [bne_iff_ne] using fun e => (h st hst) e.symm
    simp [storiesReducer, List.filter_eq_self.mpr hall]

/-- Witness for C6 at a concrete two-story state and an absent id. -/
theorem storiesReducer_remove_idempotent_and_noop_witness :
    ((storiesReducer { data := initialStories, isLoading := false, isError := false }
        (.REMOVE_STORY { reactStory with objectID := 7 })).bind
      (fun s2 => storiesReducer s2 (.REMOVE_STORY { reactStory with objectID := 7 }))
      = storiesReducer { data := initialStories, isLoading := false, isError := false }
          (.REMOVE_STORY { reactStory with objectID := 7 }))
    ∧ storiesReducer { data := initialStories, isLoading := false, isError := false }
        (.REMOVE_STORY { reactStory with objectID := 7 })
      = some { data := initialStories, isLoading := false, isError := false } :=
  ⟨(storiesReducer_remove_idempotent_and_noop
      { data := initialStories, isLoading := false, isError := false }
      { reactStory with objectID := 7 }).1,
   (storiesReducer_remove_idempotent_and_noop
      { data := initialStories, isLoading := false, isError := false }
      { reactStory with objectID := 7 }).2 (by decide)⟩

/-- The four `case` labels of the reducer's `switch` statement
(src/src/App.js lines 27, 33, 40, 46). -/
def recognizedActionTypes : List String :=
  ["STORIES_FETCH_INIT", "STORIES_FETCH_SUCCESS",
   "STORIES_FETCH_FAILURE", "REMOVE_STORY"]

/-- C8: on an action whose type string is none of the four recognized
transition kinds, the reducer throws (modelled as `none`) instead of
returning a state. -/
theorem storiesReducer_unrecognized_throws (s : StoriesState) (a : StoriesAction)
    (h : a.type ∉ recognizedActionTypes) :
    storiesReducer s a = none := by
  cases a <;> try rfl
  all_goals exact absurd (by simp [StoriesAction.type, recognizedActionTypes]) h

/-- Witness for C8 at a concrete unrecognized action type. -/
theorem storiesReducer_unrecognized_throws_witness :
    storiesReducer initialStoriesState (.unrecognized "SET_STORIES") = none :=
  storiesReducer_unrecognized_throws initialStoriesState
    (.unrecognized "SET_STORIES") (by decide)

/-- Whether `needle` occurs at the start of `hay` (character-by-character). -/
def charsStartsWith : List Char → List Char → Bool
  | _, [] => true
  | [], _ :: _ => false
  | a :: hay, b :: needle => a = b && charsStartsWith hay needle

/-- Whether `needle` occurs contiguously anywhere in `hay`; the empty needle
always occurs. -/
def charsIncludes : List Char → List Char → Bool
  | [], needle => needle.isEmpty
  | a :: hay, needle => charsStartsWith (a :: hay) needle || charsIncludes hay needle

/-- JS `s.includes(t)`: substring containment. -/
def jsIncludes (s t : String) : Bool := charsIncludes s.data t.data

/-- JS `s.toLowerCase()`: lower-case every character. -/
def jsToLowerCase (s : String) : String := ⟨s.data.map Char.toLower⟩

/-- The client-side filter `searchedStories` of src/unnamed/part_000,
lines 75-77: keep the stories whose lower-cased title contains the
lower-cased search term. -/
def searchedStories (stories : List Story) (searchTerm : String) : List Story :=
  stories.filter (fun story =>
    jsIncludes (jsToLowerCase story.title) (jsToLowerCase searchTerm))

/-- Containment of the empty needle always holds. -/
theorem charsIncludes_nil (hay : List Char) : charsIncludes hay [] = true := by
  cases hay <;> rfl

/-- C7: filtering with the empty term returns the item list unchanged (an
order-preserving identity), and in particular FETCH_SUCCESS(payload)
followed by filtering with the empty term returns exactly the payload. -/
theorem searchedStories_empty_term_identity :
    (∀ items : List Story, searchedStories items "" = items)
    ∧ ∀ (s : StoriesState) (payload : List Story),
        (storiesReducer s (.STORIES_FETCH_SUCCESS payload)).map
            (fun s2 => searchedStories s2.data "")
          = some payload := by
  have hid : ∀ items : List Story, searchedStories items "" = items := by
    intro items
    refine List.filter_eq_self.mpr ?_
    intro st _
    exact charsIncludes_nil _
  exact ⟨hid, fun s payload => by simp [storiesReducer, hid]⟩

/-- JS string truthiness: a string is truthy iff it is non-empty. -/
def jsTruthy (s : String) : Bool := !s.isEmpty

/-- JS `x || y` on a nullable string `x` (as in
`localStorage.getItem(key) || initialState`, src/src/App.js line 9):
`null` and the empty string are falsy, so both fall back to `y`. -/
def jsStringOr (x : Option String) (y : String) : String :=
  match x with
  | none => y
  | some v => if jsTruthy v then v else y

/-- The seeding of `useSemiPersistentState` (src/src/App.js lines 7-9):
the initial value is `localStorage.getItem(key) || initialState`, where the
durable store is modelled as a partial map from keys to stored strings. -/
def useSemiPersistentStateInit (store : String → Option String)
    (key initialState : String) : String :=
  jsStringOr (store key) initialState

/-- C9: when the durable store has no prior value for the key, the hook
initialises to the supplied default. -/
theorem useSemiPersistentStateInit_absent_default
    (store : String → Option String) (key initialState : String)
    (h : store key = none) :
    useSemiPersistentStateInit store key initialState = initialState := by
  simp [useSemiPersistentStateInit, jsStringOr, h]

/-- Witness for C9 at the empty store and the key "search" with default
"React". -/
theorem useSemiPersistentStateInit_absent_default_witness :
    useSemiPersistentStateInit (fun _ => none) "search" "React" = "React" :=
  useSemiPersistentStateInit_absent_default (fun _ => none) "search" "React" rfl

/-- C10: a persisted empty string is indistinguishable from an absent value;
the hook initialises to the supplied default instead of restoring "". -/
theorem useSemiPersistentStateInit_empty_as_absent
    (store : String → Option String) (key initialState : String)
    (h : store key = some "") :
    useSemiPersistentStateInit store key initialState = initialState := by
  simp [useSemiPersistentStateInit, jsStringOr, jsTruthy, h, String.isEmpty]

/-- Witness for C10 at a store mapping "search" to the empty string. -/
theorem useSemiPersistentStateInit_empty_as_absent_witness :
    useSemiPersistentStateInit (fun k => if k = "search" then some "" else none)
      "search" "React" = "React" :=
  useSemiPersistentStateInit_empty_as_absent
    (fun k => if k = "search" then some "" else none) "search" "React" rfl

/-- The fixed API base URL of src/src/App.js line 58. -/
def API_ENDPOINT : String := "https://hn.algolia.com/api/v1/search?query="

/-- The two pieces of App state that drive fetching (src/src/App.js lines
61-68): the live search term (useSemiPersistentState) and the committed
request url (useState seeded with API_ENDPOINT concatenated with the
term). -/
structure AppState where
  searchTerm : String
  url : String
  deriving DecidableEq, Repr

/-- `handleSearchSubmit` of src/src/App.js lines 106-110: commit the current
search term by setting the url state to API_ENDPOINT concatenated with the
term. -/
def handleSearchSubmit (s : AppState) : AppState :=
  { s with url := API_ENDPOINT ++ s.searchTerm }

/-- Number of fetch cycles a state update triggers. The data-fetching effect
(src/src/App.js lines 91-93) depends on `handleFetchStories`, which is
memoized with `useCallback` on `[url]` (lines 75-89), so after a state
update the effect re-runs — performing exactly one INIT followed by one
SUCCESS or FAILURE — precisely when the url value changed; React compares
dependencies by value identity and bails out of a `setUrl` to an identical
string, so an unchanged url re-runs nothing. -/
def fetchCyclesTriggered (before after : AppState) : Nat :=
  if after.url = before.url then 0 else 1

/-- C4 counterexample: with "React" already committed, submitting the
unchanged term "React" leaves the url identical, so zero new fetch cycles
are triggered — not the one cycle the claim asserts. -/
theorem resubmit_unchanged_term_triggers_no_fetch :
    fetchCyclesTriggered { searchTerm := "React", url := API_ENDPOINT ++ "React" }
        (handleSearchSubmit { searchTerm := "React", url := API_ENDPOINT ++ "React" }) = 0
    ∧ fetchCyclesTriggered { searchTerm := "React", url := API_ENDPOINT ++ "React" }
        (handleSearchSubmit { searchTerm := "React", url := API_ENDPOINT ++ "React" }) ≠ 1 := by
  exact ⟨rfl, by decide⟩

/-- C4 (amended): submitting commits the url built from the current term and
triggers exactly one new fetch cycle when that url differs from the
committed one, and zero when it is unchanged (the effect dependencies do not
change, so unchanged queries are implicitly deduplicated). -/
theorem handleSearchSubmit_fetch_cycles (s : AppState) :
    (handleSearchSubmit s).url = API_ENDPOINT ++ s.searchTerm
    ∧ fetchCyclesTriggered s (handleSearchSubmit s)
        = if API_ENDPOINT ++ s.searchTerm = s.url then 0 else 1 :=
  ⟨rfl, rfl⟩

/-- Submit-button disabling of `SearchForm` (src/src/App.js line 206):
`disabled` is the JS negation of the search term's truthiness. -/
def submitDisabled (searchTerm : String) : Bool :=
  !(jsTruthy searchTerm)

/-- C5 counterexample: the whitespace-only term " " is blank, yet submission
is not disabled for it, and submitting it (here from a committed "React"
query) triggers a fetch cycle with a blank query — the system does issue a
remote call with a blank query. -/
theorem blank_term_submittable_and_fetches :
    (" " : String).data.all Char.isWhitespace = true
    ∧ submitDisabled " " = false
    ∧ fetchCyclesTriggered { searchTerm := " ", url := API_ENDPOINT ++ "React" }
        (handleSearchSubmit { searchTerm := " ", url := API_ENDPOINT ++ "React" }) = 1 := by
  refine ⟨by decide, rfl, ?_⟩
  decide

/-- C5 (amended): submission is disabled exactly for the empty search term;
only the empty term can never be committed, while whitespace-only terms
remain submittable. -/
theorem submitDisabled_iff_empty (t : String) :
    submitDisabled t = true ↔ t = "" := by
  simp [submitDisabled, jsTruthy, String.isEmpty_iff]
